import Mathlib

/-!
A shallow embedding of the Proxmox SDN-zone resource of
`terraform-provider-proxmox` (packages `sdn_zones` and `zones`), together
with theorems about its conversion and transport layers.

Modelling conventions:
* Terraform plugin-framework values (`types.String`, `types.Int32`,
  `types.Bool`, `types.List` of strings) are modelled as `Option` of the
  underlying value; the framework's null and unknown states both collapse
  to `none` (`ValueStringPointer` and friends return `nil` for both).
* Go pointer fields (`*string`, `*int32`, `*bool`) are modelled as
  `Option`; a nil pointer is `none`.
* `int32` values are modelled as `Int` (the code only stores and copies
  them, no arithmetic is performed).
* Functions that can hit a nil-pointer dereference (a Go runtime panic)
  return `Option`, with `none` marking the panic.
* `diag.Diagnostics` is modelled as a list of `Diagnostic` values appended
  in program order.  The only diagnostics producible in this embedding are
  the explicit `AddError`/`AddWarning` calls: `list.ElementsAs` and
  `types.ListValueFrom` over plain strings cannot fail, so the helper
  conversions contribute no diagnostics.
-/

namespace SdnZones

/-- Severity of a Terraform diagnostic: `AddWarning` is non-fatal,
`AddError` is fatal. -/
inductive Severity where
  | warning : Severity
  | error : Severity
deriving DecidableEq, Repr

/-- One Terraform diagnostic (severity, summary, detail). -/
structure Diagnostic where
  severity : Severity
  summary : String
  detail : String
deriving DecidableEq, Repr

/-- Whether the character list `pat` occurs at the head of `s`
(helper for `goContains`). -/
def leadsWith : List Char → List Char → Bool
  | [], _ => true
  | _ :: _, [] => false
  | a :: as, b :: bs => a == b && leadsWith as bs

/-- Whether the character list `pat` occurs anywhere inside `s`
(helper for `goContains`). -/
def hasSub (pat : List Char) : List Char → Bool
  | [] => leadsWith pat []
  | c :: rest => leadsWith pat (c :: rest) || hasSub pat rest

/-- Go `strings.Contains(s, sub)`: substring containment on the
character sequences of the two strings. -/
def goContains (s sub : String) : Bool :=
  hasSub sub.data s.data

/-- Go `strings.Join(xs, ",")`: the elements' character lists joined with
a single comma. -/
def joinComma (xs : List String) : String :=
  String.mk ([','].intercalate (xs.map String.data))

/-- Go `strings.Split(s, ",")` for the one-character separator used by
this code: split the character list on `','` (Go and Lean agree on
single-character separators, including `Split("", ",") = [""]`). -/
def splitComma (s : String) : List String :=
  (s.data.splitOn ',').map String.mk

/-- Model `sdnZoneSimpleModel` (file `sdn_zones`, tfsdk tag `dhcp`). -/
structure SdnZoneSimpleModel where
  automaticDHCP : Option String := none
deriving DecidableEq, Repr

/-- Model `sdnZoneVlanModel` (tfsdk tag `bridge`). -/
structure SdnZoneVlanModel where
  bridge : Option String := none
deriving DecidableEq, Repr

/-- Model `sdnZoneVxlanModel` (tfsdk tags `peers`, `port`). -/
structure SdnZoneVxlanModel where
  peers : Option (List String) := none
  port : Option Int := none
deriving DecidableEq, Repr

/-- Model `sdnZoneQinQModel` (tfsdk tags `bridge`, `tag`, `vlan_protocol`). -/
structure SdnZoneQinQModel where
  bridge : Option String := none
  tag : Option Int := none
  vlanProtocol : Option String := none
deriving DecidableEq, Repr

/-- Model `sdnZoneEvpnModel` (tfsdk tags `controller`, `vrf_vxlan`, `mac`,
`exitnodes`, `exitnodes_primary`, `exitnodes_local_routing`,
`advertise_subnets`, `disable_arp_nd_suppression`, `rt_import`). -/
structure SdnZoneEvpnModel where
  controller : Option String := none
  vrfVxlan : Option Int := none
  mac : Option String := none
  exitnodes : Option (List String) := none
  exitnodesPrimary : Option String := none
  exitnodesLocalRouting : Option Bool := none
  advertiseSubnets : Option Bool := none
  disableArpNdSuppression : Option Bool := none
  rtImport : Option String := none
deriving DecidableEq, Repr

/-- Model `sdnZoneResourceModel`: the Terraform configuration shape.  The
five variant blocks are nullable nested objects; the defaults are the Go
zero values (nil pointers / null values). -/
structure SdnZoneResourceModel where
  name : Option String := none
  mtu : Option Int := none
  nodes : Option (List String) := none
  ipam : Option String := none
  dns : Option String := none
  reverseDNS : Option String := none
  dnsZone : Option String := none
  simple : Option SdnZoneSimpleModel := none
  vlan : Option SdnZoneVlanModel := none
  vxlan : Option SdnZoneVxlanModel := none
  qinq : Option SdnZoneQinQModel := none
  evpn : Option SdnZoneEvpnModel := none
deriving DecidableEq, Repr

/-- Wire body `zones.SdnZoneBody`: the flat record sent to and received
from the `cluster/sdn/zones` endpoint.  The defaults are the Go zero
values (nil pointers), so a composite literal that sets only some fields
matches the Go struct literal. -/
structure SdnZoneBody where
  name : String := ""
  type : Option String := none
  delete : Option String := none
  advertiseSubnets : Option Bool := none
  bridge : Option String := none
  bridgeDisableMacLearning : Option Bool := none
  controller : Option String := none
  dhcp : Option String := none
  disableArpNdSuppression : Option Bool := none
  dns : Option String := none
  dnszone : Option String := none
  dpID : Option Int := none
  exitnodes : Option String := none
  exitnodesLocalRouting : Option Bool := none
  exitnodesPrimary : Option String := none
  ipam : Option String := none
  mac : Option String := none
  mtu : Option Int := none
  nodes : Option String := none
  peers : Option String := none
  reversedns : Option String := none
  rtImport : Option String := none
  tag : Option Int := none
  vlanProtocol : Option String := none
  vrfVxlan : Option Int := none
  vxlanPort : Option Int := none
deriving DecidableEq, Repr

/-- `convertListToString`: a null (or unknown) Terraform list maps to a
nil string pointer; any present list (the empty list included) maps to
the comma-join of its elements. -/
def convertListToString : Option (List String) → Option String
  | none => none
  | some xs => some (joinComma xs)

/-- `convertStringToList`: a nil pointer or the empty string maps to the
null Terraform list; any other string is comma-split. -/
def convertStringToList : Option String → Option (List String)
  | none => none
  | some s => if s = "" then none else some (splitComma s)

/-- `RemoveAllAttributes`: reset the model to the Go zero value keeping
only `Name` (the code also sets `Nodes` to the explicit null list, which
is `none` here as well). -/
def removeAllAttributes (m : SdnZoneResourceModel) : SdnZoneResourceModel :=
  { name := m.name, nodes := none }

/-- `exportToSdnZoneBody`: copy the base fields, then walk the variant
blocks in the source's if/else-if order (simple, vlan, vxlan, qinq,
evpn), set `type` to the discriminant of the first non-nil block and copy
that block's fields.  When no block is set, `zoneType` keeps its Go zero
value `""` and `Type` still points at it. -/
def exportToSdnZoneBody (m : SdnZoneResourceModel) : SdnZoneBody :=
  let base : SdnZoneBody :=
    { name := m.name.getD ""
      mtu := m.mtu
      nodes := convertListToString m.nodes
      ipam := m.ipam
      dns := m.dns
      reversedns := m.reverseDNS
      dnszone := m.dnsZone }
  match m.simple, m.vlan, m.vxlan, m.qinq, m.evpn with
  | some s, _, _, _, _ =>
      { base with type := some "simple", dhcp := s.automaticDHCP }
  | none, some v, _, _, _ =>
      { base with type := some "vlan", bridge := v.bridge }
  | none, none, some v, _, _ =>
      { base with type := some "vxlan"
                  peers := convertListToString v.peers
                  vxlanPort := v.port }
  | none, none, none, some q, _ =>
      { base with type := some "qinq"
                  bridge := q.bridge
                  tag := q.tag
                  vlanProtocol := q.vlanProtocol }
  | none, none, none, none, some e =>
      { base with type := some "evpn"
                  controller := e.controller
                  vrfVxlan := e.vrfVxlan
                  mac := e.mac
                  exitnodes := convertListToString e.exitnodes
                  exitnodesPrimary := e.exitnodesPrimary
                  exitnodesLocalRouting := e.exitnodesLocalRouting
                  advertiseSubnets := e.advertiseSubnets
                  disableArpNdSuppression := e.disableArpNdSuppression
                  rtImport := e.rtImport }
  | none, none, none, none, none =>
      { base with type := some "" }

/-- `importFromSdnZoneBody`: overwrite the base fields from the wire
body, then `switch *body.Type`.  The Go code dereferences `body.Type`
unconditionally, so a body with a nil `Type` is a nil-pointer panic,
modelled as `none`.  A recognized type populates (only) the matching
variant block on the receiver; an unrecognized type adds a fatal error
diagnostic and leaves every variant block of the receiver unchanged. -/
def importFromSdnZoneBody (m : SdnZoneResourceModel) (body : SdnZoneBody) :
    Option (SdnZoneResourceModel × List Diagnostic) :=
  let m1 : SdnZoneResourceModel :=
    { m with
      name := some body.name
      mtu := body.mtu
      nodes := convertStringToList body.nodes
      ipam := body.ipam
      dns := body.dns
      reverseDNS := body.reversedns
      dnsZone := body.dnszone }
  match body.type with
  | none => none
  | some t =>
      if t = "simple" then
        some ({ m1 with simple := some { automaticDHCP := body.dhcp } }, [])
      else if t = "vlan" then
        some ({ m1 with vlan := some { bridge := body.bridge } }, [])
      else if t = "vxlan" then
        some ({ m1 with vxlan := some { peers := convertStringToList body.peers
                                        port := body.vxlanPort } }, [])
      else if t = "qinq" then
        some ({ m1 with qinq := some { bridge := body.bridge
                                       tag := body.tag
                                       vlanProtocol := body.vlanProtocol } }, [])
      else if t = "evpn" then
        some ({ m1 with evpn := some { controller := body.controller
                                       vrfVxlan := body.vrfVxlan
                                       mac := body.mac
                                       exitnodes := convertStringToList body.exitnodes
                                       exitnodesPrimary := body.exitnodesPrimary
                                       exitnodesLocalRouting := body.exitnodesLocalRouting
                                       advertiseSubnets := body.advertiseSubnets
                                       disableArpNdSuppression := body.disableArpNdSuppression
                                       rtImport := body.rtImport } }, [])
      else
        some (m1, [{ severity := Severity.error
                     summary := "Invalid SDN Zone Type"
                     detail := "SDN Zone type is not recognized: " ++ t }])

/-- `exportToUpdateBody`: build the wire body, collect into `deleteTab`
the wire names of the nil optional fields (base fields first, then the
fields of the branch selected by `switch *body.Type`), comma-join them
into `Delete` when non-empty, and strip `Type`.  The `*body.Type`
dereference is modelled like in `importFromSdnZoneBody` (it never fires
here because `exportToSdnZoneBody` always sets `Type`). -/
def exportToUpdateBody (m : SdnZoneResourceModel) : Option SdnZoneBody :=
  let body := exportToSdnZoneBody m
  match body.type with
  | none => none
  | some t =>
      let baseTab : List String :=
        (if body.mtu = none then ["mtu"] else []) ++
        (if body.nodes = none then ["nodes"] else []) ++
        (if body.ipam = none then ["ipam"] else []) ++
        (if body.dns = none then ["dns"] else []) ++
        (if body.reversedns = none then ["reversedns"] else []) ++
        (if body.dnszone = none then ["dnszone"] else [])
      let variantTab : List String :=
        if t = "simple" then
          (if body.dhcp = none then ["dhcp"] else [])
        else if t = "vlan" then
          (if body.bridge = none then ["bridge"] else [])
        else if t = "vxlan" then
          (if body.peers = none then ["peers"] else []) ++
          (if body.vxlanPort = none then ["vxlan-port"] else [])
        else if t = "qinq" then
          (if body.bridge = none then ["bridge"] else []) ++
          (if body.tag = none then ["tag"] else []) ++
          (if body.vlanProtocol = none then ["vlan-protocol"] else [])
        else if t = "evpn" then
          (if body.controller = none then ["controller"] else []) ++
          (if body.vrfVxlan = none then ["vrf-vxlan"] else []) ++
          (if body.mac = none then ["mac"] else []) ++
          (if body.exitnodes = none then ["exitnodes"] else []) ++
          (if body.exitnodesPrimary = none then ["exitnodes-primary"] else []) ++
          (if body.exitnodesLocalRouting = none then ["exitnodes-local-routing"] else []) ++
          (if body.advertiseSubnets = none then ["advertise-subnets"] else []) ++
          (if body.disableArpNdSuppression = none then ["disable-arp-nd-suppression"] else []) ++
          (if body.rtImport = none then ["rt-import"] else [])
        else []
      let deleteTab := baseTab ++ variantTab
      let body1 :=
        if deleteTab.isEmpty then body
        else { body with delete := some (joinComma deleteTab) }
      some { body1 with type := none }

/-- A list value round-trips through the comma encoding: it is non-empty,
not the singleton empty string, and none of its elements contains a
comma. -/
def listFieldOk (xs : List String) : Bool :=
  !xs.isEmpty && !(xs == [""]) && xs.all (fun s => s.data.all (fun c => !(c == ',')))

/-- Claim C1's hypothesis, literally: exactly one variant block is
populated and every field of the configuration is populated
(non-null). -/
def allFieldsPopulated (m : SdnZoneResourceModel) : Bool :=
  m.name.isSome && m.mtu.isSome && m.nodes.isSome && m.ipam.isSome &&
  m.dns.isSome && m.reverseDNS.isSome && m.dnsZone.isSome &&
  (match m.simple, m.vlan, m.vxlan, m.qinq, m.evpn with
   | some s, none, none, none, none => s.automaticDHCP.isSome
   | none, some v, none, none, none => v.bridge.isSome
   | none, none, some v, none, none => v.peers.isSome && v.port.isSome
   | none, none, none, some q, none =>
       q.bridge.isSome && q.tag.isSome && q.vlanProtocol.isSome
   | none, none, none, none, some e =>
       e.controller.isSome && e.vrfVxlan.isSome && e.mac.isSome &&
       e.exitnodes.isSome && e.exitnodesPrimary.isSome &&
       e.exitnodesLocalRouting.isSome && e.advertiseSubnets.isSome &&
       e.disableArpNdSuppression.isSome && e.rtImport.isSome
   | _, _, _, _, _ => false)

/-- The extra hypothesis the comma encoding forces on the three
list-valued fields (nodes, peers, exitnodes). -/
def modelListsOk (m : SdnZoneResourceModel) : Bool :=
  (match m.nodes with | some xs => listFieldOk xs | none => true) &&
  (match m.vxlan with
   | some v => (match v.peers with | some xs => listFieldOk xs | none => true)
   | none => true) &&
  (match m.evpn with
   | some e => (match e.exitnodes with | some xs => listFieldOk xs | none => true)
   | none => true)

/-- Exactly one of the five variant blocks is populated (the invariant
the schema's ExactlyOneOf validator enforces upstream). -/
def exactlyOneVariant (m : SdnZoneResourceModel) : Bool :=
  match m.simple, m.vlan, m.vxlan, m.qinq, m.evpn with
  | some _, none, none, none, none => true
  | none, some _, none, none, none => true
  | none, none, some _, none, none => true
  | none, none, none, some _, none => true
  | none, none, none, none, some _ => true
  | _, _, _, _, _ => false

/-- The discriminant string the export's if/else-if chain selects: the
first non-nil variant block in the order simple, vlan, vxlan, qinq,
evpn, and the Go zero value `""` when none is set. -/
def selectedZoneType (m : SdnZoneResourceModel) : String :=
  if m.simple.isSome then "simple"
  else if m.vlan.isSome then "vlan"
  else if m.vxlan.isSome then "vxlan"
  else if m.qinq.isSome then "qinq"
  else if m.evpn.isSome then "evpn"
  else ""

/-- The wire names of the optional fields the update endpoint can clear
for a given zone type: the six base fields plus the selected variant's
fields (spec section on `ToUpdateRequest`). -/
def applicableOptionalFields (t : String) : List String :=
  ["mtu", "nodes", "ipam", "dns", "reversedns", "dnszone"] ++
  (if t = "simple" then ["dhcp"]
   else if t = "vlan" then ["bridge"]
   else if t = "vxlan" then ["peers", "vxlan-port"]
   else if t = "qinq" then ["bridge", "tag", "vlan-protocol"]
   else if t = "evpn" then
     ["controller", "vrf-vxlan", "mac", "exitnodes", "exitnodes-primary",
      "exitnodes-local-routing", "advertise-subnets",
      "disable-arp-nd-suppression", "rt-import"]
   else [])

/-- Whether the wire field with the given wire name is nil in the
body. -/
def wireFieldIsNull (b : SdnZoneBody) (f : String) : Bool :=
  if f = "mtu" then b.mtu.isNone
  else if f = "nodes" then b.nodes.isNone
  else if f = "ipam" then b.ipam.isNone
  else if f = "dns" then b.dns.isNone
  else if f = "reversedns" then b.reversedns.isNone
  else if f = "dnszone" then b.dnszone.isNone
  else if f = "dhcp" then b.dhcp.isNone
  else if f = "bridge" then b.bridge.isNone
  else if f = "peers" then b.peers.isNone
  else if f = "vxlan-port" then b.vxlanPort.isNone
  else if f = "tag" then b.tag.isNone
  else if f = "vlan-protocol" then b.vlanProtocol.isNone
  else if f = "controller" then b.controller.isNone
  else if f = "vrf-vxlan" then b.vrfVxlan.isNone
  else if f = "mac" then b.mac.isNone
  else if f = "exitnodes" then b.exitnodes.isNone
  else if f = "exitnodes-primary" then b.exitnodesPrimary.isNone
  else if f = "exitnodes-local-routing" then b.exitnodesLocalRouting.isNone
  else if f = "advertise-subnets" then b.advertiseSubnets.isNone
  else if f = "disable-arp-nd-suppression" then b.disableArpNdSuppression.isNone
  else if f = "rt-import" then b.rtImport.isNone
  else false

/-- The resource's `read` helper (file `zones.go`): on a Get failure
whose message contains "does not exist" it adds a warning and resets the
model to name-only; on any other failure it adds an error and leaves the
model unchanged; on success it imports the fetched body into the model.
The Get outcome is passed in as a value (the HTTP layer is outside this
embedding). -/
def readZone (m : SdnZoneResourceModel) (res : Except String SdnZoneBody) :
    Option (SdnZoneResourceModel × List Diagnostic) :=
  match res with
  | Except.error e =>
      if goContains e "does not exist" then
        some (removeAllAttributes m,
          [{ severity := Severity.warning
             summary := "SDN Zone Not Found"
             detail := "SDN zone " ++ m.name.getD "" ++
               " does not exist, setting to empty state" }])
      else
        some (m,
          [{ severity := Severity.error
             summary := "Error listing SDN Zones"
             detail := "Failed to list SDN zones: " ++ e }])
  | Except.ok zone => importFromSdnZoneBody m zone

/-- The resource's `Delete` (file `zones.go`), reduced to its diagnostic
behaviour: a client Delete failure whose message contains "does not
exist" becomes a warning (deletion treated as already satisfied), any
other failure becomes an error, success adds nothing. -/
def deleteZone (m : SdnZoneResourceModel) (res : Except String Unit) :
    List Diagnostic :=
  match res with
  | Except.error e =>
      if goContains e "does not exist" then
        [{ severity := Severity.warning
           summary := "SDN Zone Not Found"
           detail := "SDN zone " ++ m.name.getD "" ++
             " does not exist, skipping deletion" }]
      else
        [{ severity := Severity.error
           summary := "Error Deleting SDN Zone"
           detail := "Failed to delete SDN zone " ++ m.name.getD "" ++ ": " ++ e }]
  | Except.ok _ => []

/-- Errors of the zones transport client: a wrapped transport/HTTP
failure, or `api.ErrNoDataObjectInResponse`. -/
inductive ZoneApiError where
  | transport (msg : String) : ZoneApiError
  | noData : ZoneApiError
deriving DecidableEq, Repr

/-- Go `sort.Slice(data, func(i, j) { data[i].Name < data[j].Name })`:
an (unstable) sort into nondecreasing order of `Name`, modelled as a
merge sort with the corresponding total preorder. -/
def sortZonesByName (zs : List SdnZoneBody) : List SdnZoneBody :=
  zs.mergeSort (fun a b => decide (a.name ≤ b.name))

/-- The client's `List` (file `zones_types.go`): a request failure is
wrapped as `error listing SDN zones: ...`; a response with a nil `Data`
field is the no-data error; otherwise the records are sorted by name and
returned.  The HTTP round trip itself is passed in as a value. -/
def listZones (res : Except String (Option (List SdnZoneBody))) :
    Except ZoneApiError (List SdnZoneBody) :=
  match res with
  | Except.error e => Except.error (ZoneApiError.transport ("error listing SDN zones: " ++ e))
  | Except.ok none => Except.error ZoneApiError.noData
  | Except.ok (some data) => Except.ok (sortZonesByName data)

/-- The client's `Get`: a request failure is wrapped as
`error reading SDN zone: ...`; a nil `Data` field is the no-data error;
otherwise the record is returned. -/
def getZone (res : Except String (Option SdnZoneBody)) :
    Except ZoneApiError SdnZoneBody :=
  match res with
  | Except.error e => Except.error (ZoneApiError.transport ("error reading SDN zone: " ++ e))
  | Except.ok none => Except.error ZoneApiError.noData
  | Except.ok (some d) => Except.ok d

/-- The attribute keys of the `evpn` nested block as declared in the
resource `Schema` (file `zones.go`), in source order.  Note the key
`vfr_vxlan` as written in the source. -/
def evpnSchemaAttributeKeys : List String :=
  ["controller", "vfr_vxlan", "mac", "exitnodes", "exitnodes_primary",
   "exitnodes_local_routing", "advertise_subnets",
   "disable_arp_nd_suppression", "rt_import"]

/-- The tfsdk tags of the `sdnZoneEvpnModel` struct fields, in source
order. -/
def sdnZoneEvpnModelTfsdkTags : List String :=
  ["controller", "vrf_vxlan", "mac", "exitnodes", "exitnodes_primary",
   "exitnodes_local_routing", "advertise_subnets",
   "disable_arp_nd_suppression", "rt_import"]

/-- A fully populated configuration whose nodes list has an element
containing a comma. -/
def commaNodesModel : SdnZoneResourceModel :=
  { name := some "abc"
    mtu := some 1400
    nodes := some ["a,b"]
    ipam := some "pve"
    dns := some "ns1"
    reverseDNS := some "ns2"
    dnsZone := some "example.com"
    simple := some { automaticDHCP := some "dnsmasq" } }

/-- A fully populated evpn configuration with well-behaved lists. -/
def evpnExample : SdnZoneResourceModel :=
  { name := some "abc"
    mtu := some 1400
    nodes := some ["n1", "n2"]
    ipam := some "pve"
    dns := some "ns1"
    reverseDNS := some "ns2"
    dnsZone := some "example.com"
    evpn := some { controller := some "ctrl"
                   vrfVxlan := some 100
                   mac := some "aa:bb:cc:dd:ee:ff"
                   exitnodes := some ["e1", "e2"]
                   exitnodesPrimary := some "e1"
                   exitnodesLocalRouting := some true
                   advertiseSubnets := some false
                   disableArpNdSuppression := some true
                   rtImport := some "65000:65000" } }

/-- The spec's vlan scenario: `name z1`, `vlan.bridge vmbr0`, nothing
else set. -/
def vlanExample : SdnZoneResourceModel :=
  { name := some "z1"
    vlan := some { bridge := some "vmbr0" } }

/-! Helper lemmas shared by the claim theorems. -/

/-- Filtering a cons is the filtered head (as a zero- or one-element
list) appended to the filtered tail. -/
theorem filter_cons_split (p : String → Bool) (a : String) (l : List String) :
    List.filter p (a :: l) = (if p a = true then [a] else []) ++ List.filter p l := by
  rw [List.filter_cons]; split <;> simp [*]

/-- A list satisfying `listFieldOk` survives the comma round trip. -/
theorem listFieldOk_roundtrip (xs : List String) (h : listFieldOk xs = true) :
    convertStringToList (convertListToString (some xs)) = some xs := by
  simp only [listFieldOk, Bool.and_eq_true, Bool.not_eq_true', List.all_eq_true,
    List.isEmpty_eq_false, beq_eq_false_iff_ne, ne_eq, Bool.not_eq_true,
    Bool.and_eq_true] at h
  obtain ⟨⟨hne, hsing⟩, hall⟩ := h
  have hmap : (xs.map String.data).map String.mk = xs := by
    rw [List.map_map]
    have hid : (String.mk ∘ String.data) = id := by
      funext s; rfl
    rw [hid, List.map_id]
  have hsplit : splitComma (joinComma xs) = xs := by
    show ((String.mk ([','].intercalate (xs.map String.data))).data.splitOn ',').map
      String.mk = xs
    have hdata : (String.mk ([','].intercalate (xs.map String.data))).data
        = [','].intercalate (xs.map String.data) := rfl
    rw [hdata, List.splitOn_intercalate]
    · exact hmap
    · intro l hl
      obtain ⟨s, hs, rfl⟩ := List.mem_map.mp hl
      intro hmem
      have hc := hall s hs ',' hmem
      simp at hc
    · simpa using hne
  have hjoin : joinComma xs ≠ "" := by
    intro h0
    have hx : xs = [""] := by
      have h1 := hsplit
      rw [h0] at h1
      have hempty : splitComma "" = [""] := rfl
      rw [hempty] at h1
      exact h1.symm
    exact hsing hx
  show convertStringToList (some (joinComma xs)) = some xs
  simp only [convertStringToList]
  rw [if_neg hjoin, hsplit]

/-- The exported body's `type` is always the pointer to the discriminant
selected by the if/else-if chain (never nil). -/
theorem exportType_eq (m : SdnZoneResourceModel) :
    (exportToSdnZoneBody m).type = some (selectedZoneType m) := by
  obtain ⟨name, mtu, nodes, ipam, dns, rdns, dzone, simple, vlan, vxlan, qinq, evpn⟩ := m
  rcases simple with _ | s <;> rcases vlan with _ | v <;> rcases vxlan with _ | vx <;>
    rcases qinq with _ | q <;> rcases evpn with _ | e <;>
    simp [exportToSdnZoneBody, selectedZoneType]

/-! Claim theorems. -/

/-- Claim C1, counterexample: `commaNodesModel` has exactly one variant
block populated and every field populated, yet the round trip does not
return it (its nodes element `a,b` comes back as two elements), so the
claim as stated is false. -/
theorem sdnZone_roundtrip_comma_cex :
    allFieldsPopulated commaNodesModel = true ∧
    importFromSdnZoneBody commaNodesModel (exportToSdnZoneBody commaNodesModel) ≠
      some (commaNodesModel, []) := by
  refine ⟨by decide, by decide⟩

/-- Claim C1, amended: for every configuration with exactly one variant
block populated and all fields populated, and whose list-valued fields
(nodes, peers, exitnodes) are non-empty, not the singleton empty string,
and free of commas in their elements, exporting with
`exportToSdnZoneBody` and importing back with `importFromSdnZoneBody`
returns the original configuration with no diagnostics. -/
theorem sdnZone_roundtrip_populated (m : SdnZoneResourceModel)
    (hpop : allFieldsPopulated m = true) (hlists : modelListsOk m = true) :
    importFromSdnZoneBody m (exportToSdnZoneBody m) = some (m, []) := by
  obtain ⟨name, mtu, nodes, ipam, dns, rdns, dzone, simple, vlan, vxlan, qinq, evpn⟩ := m
  rcases simple with _ | ⟨sd⟩ <;> rcases vlan with _ | ⟨vb⟩ <;>
    rcases vxlan with _ | ⟨vp, vport⟩ <;> rcases qinq with _ | ⟨qb, qt, qv⟩ <;>
    rcases evpn with _ | ⟨ec, ev, em, eex, ep, elr, eas, eda, eri⟩ <;>
    simp [allFieldsPopulated, and_assoc] at hpop
  · obtain ⟨hn, hm, hnod, hip, hd, hr, hz, hec, hev, hem, heex, hep, helr, heas, heda,
      heri⟩ := hpop
    rcases Option.isSome_iff_exists.mp hn with ⟨n, rfl⟩
    rcases nodes with _ | xs
    · simp at hnod
    rcases eex with _ | exs
    · simp at heex
    simp [modelListsOk] at hlists
    obtain ⟨h1, h2⟩ := hlists
    simp [exportToSdnZoneBody, importFromSdnZoneBody,
      listFieldOk_roundtrip _ h1, listFieldOk_roundtrip _ h2]
  · obtain ⟨hn, hm, hnod, hip, hd, hr, hz, hvar⟩ := hpop
    rcases Option.isSome_iff_exists.mp hn with ⟨n, rfl⟩
    rcases nodes with _ | xs
    · simp at hnod
    simp [modelListsOk] at hlists
    simp [exportToSdnZoneBody, importFromSdnZoneBody, listFieldOk_roundtrip _ hlists]
  · obtain ⟨hn, hm, hnod, hip, hd, hr, hz, hpe, hpo⟩ := hpop
    rcases Option.isSome_iff_exists.mp hn with ⟨n, rfl⟩
    rcases nodes with _ | xs
    · simp at hnod
    rcases vp with _ | pxs
    · simp at hpe
    simp [modelListsOk] at hlists
    obtain ⟨h1, h2⟩ := hlists
    simp [exportToSdnZoneBody, importFromSdnZoneBody,
      listFieldOk_roundtrip _ h1, listFieldOk_roundtrip _ h2]
  · obtain ⟨hn, hm, hnod, hip, hd, hr, hz, hvar⟩ := hpop
    rcases Option.isSome_iff_exists.mp hn with ⟨n, rfl⟩
    rcases nodes with _ | xs
    · simp at hnod
    simp [modelListsOk] at hlists
    simp [exportToSdnZoneBody, importFromSdnZoneBody, listFieldOk_roundtrip _ hlists]
  · obtain ⟨hn, hm, hnod, hip, hd, hr, hz, hvar⟩ := hpop
    rcases Option.isSome_iff_exists.mp hn with ⟨n, rfl⟩
    rcases nodes with _ | xs
    · simp at hnod
    simp [modelListsOk] at hlists
    simp [exportToSdnZoneBody, importFromSdnZoneBody, listFieldOk_roundtrip _ hlists]

/-- Witness for claim C1's amended theorem at a concrete fully populated
evpn configuration. -/
theorem sdnZone_roundtrip_populated_witness :
    allFieldsPopulated evpnExample = true ∧ modelListsOk evpnExample = true ∧
    importFromSdnZoneBody evpnExample (exportToSdnZoneBody evpnExample) =
      some (evpnExample, []) :=
  ⟨by decide, by decide, sdnZone_roundtrip_populated evpnExample (by decide) (by decide)⟩

/-- Claim C2: for every configuration with exactly one variant block
populated, `exportToUpdateBody` yields a body whose `Type` is nil and
whose `Delete` is exactly the comma-join of the wire names of the
optional fields that are nil in the produced record and applicable to
its zone type (nil when no such field exists). -/
theorem updateBody_delete_list (m : SdnZoneResourceModel)
    (hone : exactlyOneVariant m = true) :
    ∃ b, exportToUpdateBody m = some b ∧ b.type = none ∧
      b.delete =
        (let w := exportToSdnZoneBody m
         let d := (applicableOptionalFields (w.type.getD "")).filter (wireFieldIsNull w)
         if d.isEmpty then none else some (joinComma d)) := by
  obtain ⟨name, mtu, nodes, ipam, dns, rdns, dzone, simple, vlan, vxlan, qinq, evpn⟩ := m
  rcases simple with _ | s <;> rcases vlan with _ | v <;> rcases vxlan with _ | vx <;>
    rcases qinq with _ | q <;> rcases evpn with _ | e <;>
    simp [exactlyOneVariant] at hone
  all_goals (
    refine ⟨_, rfl, rfl, ?_⟩
    dsimp only [exportToUpdateBody, exportToSdnZoneBody]
    simp only [Option.getD_some, applicableOptionalFields, String.reduceEq, reduceIte,
      ite_true, ite_false, List.cons_append, List.nil_append]
    simp only [filter_cons_split, List.filter_nil]
    simp only [wireFieldIsNull, String.reduceEq, reduceIte, ite_true, ite_false]
    simp only [Option.isNone_iff_eq_none]
    rw [apply_ite SdnZoneBody.delete]
    simp only [List.append_assoc, List.append_nil]
    try rfl )

/-- Witness for claim C2 at the spec's vlan scenario: every base
optional field is null, so the delete list is exactly the six base
names. -/
theorem updateBody_delete_list_witness :
    ∃ b, exportToUpdateBody vlanExample = some b ∧ b.type = none ∧
      b.delete = some "mtu,nodes,ipam,dns,reversedns,dnszone" := by
  obtain ⟨b, h1, h2, h3⟩ := updateBody_delete_list vlanExample (by decide)
  refine ⟨b, h1, h2, ?_⟩
  rw [h3]
  rfl

/-- Claim C3, counterexample: the empty (non-null) list is mapped to a
pointer to the empty string, not to the nil pointer the claim
states. -/
theorem listString_conversion_empty_cex :
    convertListToString (some ([] : List String)) = some "" ∧
    convertListToString (some ([] : List String)) ≠ none := by
  refine ⟨rfl, by decide⟩

/-- Claim C3, amended: `["a","b","c"]` maps to `"a,b,c"` and back; a
null list maps to the null string while an empty list maps to the
present empty string; a null or empty string maps to the null list. -/
theorem listString_conversion_spec :
    convertListToString (some ["a", "b", "c"]) = some "a,b,c" ∧
    convertStringToList (some "a,b,c") = some ["a", "b", "c"] ∧
    convertListToString none = none ∧
    convertListToString (some []) = some "" ∧
    convertStringToList none = none ∧
    convertStringToList (some "") = none := by
  refine ⟨rfl, rfl, rfl, rfl, rfl, rfl⟩

/-- Claim C4: a Get failure whose message contains "does not exist"
produces a warning and a name-only model; a Delete failure with that
substring produces a warning only; any other Get or Delete failure
produces an error diagnostic. -/
theorem notFound_warning_handling (m : SdnZoneResourceModel) (e : String) :
    (goContains e "does not exist" = true →
      readZone m (Except.error e) =
        some ({ name := m.name },
          [{ severity := Severity.warning
             summary := "SDN Zone Not Found"
             detail := "SDN zone " ++ m.name.getD "" ++
               " does not exist, setting to empty state" }]) ∧
      deleteZone m (Except.error e) =
        [{ severity := Severity.warning
           summary := "SDN Zone Not Found"
           detail := "SDN zone " ++ m.name.getD "" ++
             " does not exist, skipping deletion" }]) ∧
    (goContains e "does not exist" = false →
      readZone m (Except.error e) =
        some (m,
          [{ severity := Severity.error
             summary := "Error listing SDN Zones"
             detail := "Failed to list SDN zones: " ++ e }]) ∧
      deleteZone m (Except.error e) =
        [{ severity := Severity.error
           summary := "Error Deleting SDN Zone"
           detail := "Failed to delete SDN zone " ++ m.name.getD "" ++ ": " ++ e }]) := by
  constructor <;> intro h <;>
    simp [readZone, deleteZone, removeAllAttributes, h]

/-- Witness for claim C4 at a concrete not-found message. -/
theorem notFound_warning_handling_witness :
    readZone { name := some "z1" } (Except.error "sdn zone z1 does not exist") =
      some ({ name := some "z1" },
        [{ severity := Severity.warning
           summary := "SDN Zone Not Found"
           detail := "SDN zone z1 does not exist, setting to empty state" }]) ∧
    deleteZone { name := some "z1" } (Except.error "sdn zone z1 does not exist") =
      [{ severity := Severity.warning
         summary := "SDN Zone Not Found"
         detail := "SDN zone z1 does not exist, skipping deletion" }] :=
  (notFound_warning_handling { name := some "z1" } "sdn zone z1 does not exist").1
    (by decide)

/-- Claim C5: `exportToSdnZoneBody` sets `type` to the discriminant of
the first non-nil variant block in the fixed order simple, vlan, vxlan,
qinq, evpn; and under the exactly-one-variant precondition the produced
record is exactly the base fields plus the populated variant's fields
under its discriminant. -/
theorem exportType_matches_variant (m : SdnZoneResourceModel) :
    (exportToSdnZoneBody m).type = some (selectedZoneType m) ∧
    (exactlyOneVariant m = true →
      (∀ s, m.simple = some s → exportToSdnZoneBody m =
        { name := m.name.getD "", mtu := m.mtu, nodes := convertListToString m.nodes,
          ipam := m.ipam, dns := m.dns, reversedns := m.reverseDNS,
          dnszone := m.dnsZone, type := some "simple",
          dhcp := s.automaticDHCP }) ∧
      (∀ v, m.vlan = some v → exportToSdnZoneBody m =
        { name := m.name.getD "", mtu := m.mtu, nodes := convertListToString m.nodes,
          ipam := m.ipam, dns := m.dns, reversedns := m.reverseDNS,
          dnszone := m.dnsZone, type := some "vlan", bridge := v.bridge }) ∧
      (∀ v, m.vxlan = some v → exportToSdnZoneBody m =
        { name := m.name.getD "", mtu := m.mtu, nodes := convertListToString m.nodes,
          ipam := m.ipam, dns := m.dns, reversedns := m.reverseDNS,
          dnszone := m.dnsZone, type := some "vxlan",
          peers := convertListToString v.peers, vxlanPort := v.port }) ∧
      (∀ q, m.qinq = some q → exportToSdnZoneBody m =
        { name := m.name.getD "", mtu := m.mtu, nodes := convertListToString m.nodes,
          ipam := m.ipam, dns := m.dns, reversedns := m.reverseDNS,
          dnszone := m.dnsZone, type := some "qinq", bridge := q.bridge,
          tag := q.tag, vlanProtocol := q.vlanProtocol }) ∧
      (∀ e, m.evpn = some e → exportToSdnZoneBody m =
        { name := m.name.getD "", mtu := m.mtu, nodes := convertListToString m.nodes,
          ipam := m.ipam, dns := m.dns, reversedns := m.reverseDNS,
          dnszone := m.dnsZone, type := some "evpn", controller := e.controller,
          vrfVxlan := e.vrfVxlan, mac := e.mac,
          exitnodes := convertListToString e.exitnodes,
          exitnodesPrimary := e.exitnodesPrimary,
          exitnodesLocalRouting := e.exitnodesLocalRouting,
          advertiseSubnets := e.advertiseSubnets,
          disableArpNdSuppression := e.disableArpNdSuppression,
          rtImport := e.rtImport })) := by
  refine ⟨exportType_eq m, fun hone => ?_⟩
  obtain ⟨name, mtu, nodes, ipam, dns, rdns, dzone, simple, vlan, vxlan, qinq, evpn⟩ := m
  rcases simple with _ | s <;> rcases vlan with _ | v <;> rcases vxlan with _ | vx <;>
    rcases qinq with _ | q <;> rcases evpn with _ | e <;>
    simp [exactlyOneVariant] at hone <;>
    simp [exportToSdnZoneBody]

/-- Witness for claim C5 at the spec's vlan scenario: the wire record is
`zone z1, type vlan, bridge vmbr0`. -/
theorem exportType_matches_variant_witness :
    exportToSdnZoneBody vlanExample =
      { name := "z1", type := some "vlan", bridge := some "vmbr0" } :=
  ((exportType_matches_variant vlanExample).2 (by decide)).2.1
    { bridge := some "vmbr0" } rfl

/-- Claim C6, counterexample: a wire record whose `Type` field is absent
makes `importFromSdnZoneBody` dereference a nil pointer (a runtime
panic, `none` in this embedding), so the conversion does abort on that
input shape. -/
theorem import_nil_type_cex :
    importFromSdnZoneBody {} { name := "z" } = none := rfl

/-- Claim C6, amended: `exportToUpdateBody` (and so `exportToSdnZoneBody`)
never fails on any configuration, and `importFromSdnZoneBody` never
fails on any wire record whose `Type` field is present — unrecognized
type strings included; only a record with an absent `Type` field is
outside its domain. -/
theorem conversion_total_present_type :
    (∀ m : SdnZoneResourceModel, (exportToUpdateBody m).isSome = true) ∧
    (∀ (m : SdnZoneResourceModel) (b : SdnZoneBody),
      b.type.isSome = true → (importFromSdnZoneBody m b).isSome = true) := by
  constructor
  · intro m
    simp only [exportToUpdateBody, exportType_eq m]
    rfl
  · intro m b h
    rcases Option.isSome_iff_exists.mp h with ⟨t, ht⟩
    simp only [importFromSdnZoneBody, ht]
    split_ifs <;> rfl

/-- Witness for claim C6's amended theorem at concrete inputs. -/
theorem conversion_total_present_type_witness :
    (exportToUpdateBody {}).isSome = true ∧
    (importFromSdnZoneBody {} { name := "z", type := some "simple" }).isSome = true :=
  ⟨conversion_total_present_type.1 {},
   conversion_total_present_type.2 {} { name := "z", type := some "simple" } (by decide)⟩

/-- Claim C7 (code bug): the model's tfsdk tag `vrf_vxlan` has no
counterpart among the `evpn` schema attribute keys — the schema declares
`vfr_vxlan` instead — so the schema does not declare the attribute set
the claim (and the model struct) require. -/
theorem evpn_schema_key_mismatch :
    ("vrf_vxlan" ∈ sdnZoneEvpnModelTfsdkTags) ∧
    ("vrf_vxlan" ∉ evpnSchemaAttributeKeys) ∧
    ("vfr_vxlan" ∈ evpnSchemaAttributeKeys) ∧
    ("vfr_vxlan" ∉ sdnZoneEvpnModelTfsdkTags) := by
  refine ⟨by decide, by decide, by decide, by decide⟩

/-- Claim C8: a wire record with a present but unrecognized `type`
string makes `importFromSdnZoneBody` return the base-fields-updated
model with every variant block of the receiver unchanged, plus exactly
one fatal error diagnostic naming the bad type. -/
theorem unknown_type_fatal_error (m : SdnZoneResourceModel) (b : SdnZoneBody)
    (t : String) (ht : b.type = some t) (h1 : t ≠ "simple") (h2 : t ≠ "vlan")
    (h3 : t ≠ "vxlan") (h4 : t ≠ "qinq") (h5 : t ≠ "evpn") :
    importFromSdnZoneBody m b =
      some ({ m with
              name := some b.name
              mtu := b.mtu
              nodes := convertStringToList b.nodes
              ipam := b.ipam
              dns := b.dns
              reverseDNS := b.reversedns
              dnsZone := b.dnszone },
        [{ severity := Severity.error
           summary := "Invalid SDN Zone Type"
           detail := "SDN Zone type is not recognized: " ++ t }]) := by
  simp [importFromSdnZoneBody, ht, h1, h2, h3, h4, h5]

/-- Witness for claim C8 at the `faucet` type the code does not
handle. -/
theorem unknown_type_fatal_error_witness :
    importFromSdnZoneBody {} { name := "z", type := some "faucet" } =
      some ({ name := some "z" },
        [{ severity := Severity.error
           summary := "Invalid SDN Zone Type"
           detail := "SDN Zone type is not recognized: faucet" }]) :=
  unknown_type_fatal_error {} { name := "z", type := some "faucet" } "faucet" rfl
    (by decide) (by decide) (by decide) (by decide) (by decide)

/-- Claim C9: whatever order the server returns, a successful List call
yields the same records sorted in nondecreasing order of name. -/
theorem list_sorted_by_name (data : List SdnZoneBody) :
    ∃ out, listZones (Except.ok (some data)) = Except.ok out ∧
      List.Pairwise (fun a b => a.name ≤ b.name) out ∧ List.Perm out data := by
  refine ⟨sortZonesByName data, rfl, ?_, List.mergeSort_perm data _⟩
  have h := @List.sorted_mergeSort SdnZoneBody
    (fun a b => decide (a.name ≤ b.name)) ?_ ?_ data
  · refine h.imp ?_
    intro a b hab
    simpa using hab
  · intro a b c hab hbc
    simp only [decide_eq_true_eq] at hab hbc ⊢
    exact le_trans hab hbc
  · intro a b
    simp only [Bool.or_eq_true, decide_eq_true_eq]
    exact le_total a.name b.name

/-- Claim C10: the no-data error occurs exactly when the request
succeeds with an absent data field; a present data field is returned
(sorted for List), and a failed request becomes a wrapped transport
error. -/
theorem transport_error_modes (resL : Except String (Option (List SdnZoneBody)))
    (resG : Except String (Option SdnZoneBody)) :
    (listZones resL = Except.error ZoneApiError.noData ↔ resL = Except.ok none) ∧
    (∀ d, resL = Except.ok (some d) →
      listZones resL = Except.ok (sortZonesByName d)) ∧
    (∀ e, resL = Except.error e →
      listZones resL =
        Except.error (ZoneApiError.transport ("error listing SDN zones: " ++ e))) ∧
    (getZone resG = Except.error ZoneApiError.noData ↔ resG = Except.ok none) ∧
    (∀ d, resG = Except.ok (some d) → getZone resG = Except.ok d) ∧
    (∀ e, resG = Except.error e →
      getZone resG =
        Except.error (ZoneApiError.transport ("error reading SDN zone: " ++ e))) := by
  refine ⟨?_, ?_, ?_, ?_, ?_, ?_⟩
  · cases resL with
    | error e => simp [listZones]
    | ok o => cases o <;> simp [listZones]
  · intro d hd; subst hd; rfl
  · intro e he; subst he; rfl
  · cases resG with
    | error e => simp [getZone]
    | ok o => cases o <;> simp [getZone]
  · intro d hd; subst hd; rfl
  · intro e he; subst he; rfl

/-- Witness for claim C10 at concrete responses. -/
theorem transport_error_modes_witness :
    listZones (Except.ok (some ([] : List SdnZoneBody))) = Except.ok [] ∧
    getZone (Except.error "boom") =
      Except.error (ZoneApiError.transport "error reading SDN zone: boom") := by
  constructor
  · have h := (transport_error_modes (Except.ok (some [])) (Except.error "boom")).2.1 [] rfl
    rw [sortZonesByName, List.mergeSort_nil] at h
    exact h
  · exact (transport_error_modes (Except.ok (some []))
      (Except.error "boom")).2.2.2.2.2 "boom" rfl

end SdnZones
